import Mathlib

/-!
# Evenflow affinity core: shallow embedding and verification

This file embeds the affinity/trace core of the `evenflow` repository
(`src/mcp/world_adapter.py`, `src/mcp/tools.py`, schemas in
`src/evenflow_mcp/schemas.py`) and proves properties of its operations.

Conventions of the embedding:
* Python `float` is modelled as `ℚ` (all literals in the source are exact
  decimals); Python timestamps are `ℚ` values passed explicitly (`now`).
* A Python `dict` is an insertion-ordered association list
  (`List (κ × α)`) with first-match lookup (`dget`) and
  replace-first-or-append assignment (`dset`); Python dicts in the source
  always have unique keys, and `dget`/`dset` agree with `dict.get` /
  subscript assignment on such lists.
* Fallible operations return `Option` (the source returns `None`) or
  `Except PyError` where the source can raise.
* The imported package `world.affinity.*` (core dataclasses, decay and
  scoring, `log_event`, threshold labels, the global affordance registry)
  is not part of the available sources; those pieces are modelled from the
  spec, as marked on each definition.  Quantities the spec leaves real
  valued or configuration-supplied (exponential decay, threshold label
  boundaries, the registry contents) are abstract fields of `Env`; none of
  the proved properties depend on their values.
-/

namespace Evenflow

/-- First-match lookup in an association list; models Python `dict.get`
(keys are unique in every dict the source builds, so first match is the
match). -/
def dget {κ α : Type} [DecidableEq κ] : List (κ × α) → κ → Option α
  | [], _ => none
  | (k1, v) :: rest, k => if k1 = k then some v else dget rest k

/-- Replace the value at the first occurrence of the key, or append the
pair; models Python `dict[k] = v` on unique-key association lists. -/
def dset {κ α : Type} [DecidableEq κ] : List (κ × α) → κ → α → List (κ × α)
  | [], k, v => [(k, v)]
  | (k1, v1) :: rest, k, v =>
      if k1 = k then (k1, v) :: rest else (k1, v1) :: dset rest k v

/-! ## Data model

`TraceRecord`, `Location`, `SaturationState`, `AffordanceConfig` and
`AffinityEvent` live in `world/affinity/core.py`, which is not under the
available sources; they are modelled from the spec (§3 DATA MODEL), with
exactly the fields the adapter code reads. -/

/-- Modelled from the spec: `TraceRecord` (world/affinity/core.py is not in
the sources) — one decaying memory unit: accumulated intensity, timestamp
of last contribution, event count, scar flag. -/
structure TraceRecord where
  accumulated : ℚ
  last_updated : ℚ
  event_count : Nat
  is_scar : Bool
deriving DecidableEq

/-- Modelled from the spec: per-channel saturation values of a location
(world/affinity/core.py is not in the sources). -/
structure SaturationState where
  personal : ℚ
  group : ℚ
  behavior : ℚ
deriving DecidableEq

/-- Modelled from the spec: `AffordanceConfig` (world/affinity/core.py is
not in the sources) — static per-location configuration of a mechanical
effect; fields are exactly those constructed in
`EvenflowAdapter._parse_location_yaml`. -/
structure AffordanceConfig where
  affordance_type : String
  enabled : Bool
  mechanical_handle : Option String
  severity_clamp_hostile : ℚ
  severity_clamp_favorable : ℚ
  cooldown_seconds : ℚ
  tells_hostile : List String
  tells_favorable : List String
deriving DecidableEq

/-- Modelled from the spec: `Location` (world/affinity/core.py is not in
the sources) — identity and display data, valuation profile, the three
trace maps (personal keyed by (actorId, eventType), group by
(actorTag, eventType), behavior by eventType), saturation, affordances,
cooldowns, last tick. -/
structure Location where
  location_id : String
  name : String
  description : String
  valuation_profile : List (String × ℚ)
  personal_traces : List ((String × String) × TraceRecord)
  group_traces : List ((String × String) × TraceRecord)
  behavior_traces : List (String × TraceRecord)
  saturation : SaturationState
  affordances : List AffordanceConfig
  cooldowns : List (String × ℚ)
  last_tick : ℚ
deriving DecidableEq

/-- Modelled from the spec: `AffinityEvent` (world/affinity/core.py is not
in the sources) — the ephemeral event consumed by the logger/predictor. -/
structure AffinityEvent where
  event_type : String
  actor_id : String
  actor_tags : List String
  location_id : String
  intensity : ℚ

/-- The adapter's location store `EvenflowAdapter._locations`
(a Python dict from location id to `Location`). -/
abbrev Store := List (String × Location)

/-- Modelled from the spec: the process-wide configuration and the pieces
of `world.affinity` that are not under the available sources.
`half_life_*_days` and `weight_*` are `get_config().half_lives.location.*`
and `get_config().channel_weights.*` (read-only after load, spec §3
Config).  `get_decayed_value record halfLifeSeconds now` is the decay
function of spec §4.1 — a real-valued exponential, kept abstract since no
property proved here depends on its values.  `get_threshold_label` maps a
total score to one of the five labels (spec §4.3; the numeric boundaries
are configuration, spec §9).  `is_affordance_enabled` is the process-wide
affordance registry of spec §4.7. -/
structure Env where
  half_life_personal_days : ℚ
  half_life_group_days : ℚ
  half_life_behavior_days : ℚ
  weight_personal : ℚ
  weight_group : ℚ
  weight_behavior : ℚ
  get_decayed_value : TraceRecord → ℚ → ℚ → ℚ
  get_threshold_label : ℚ → String
  is_affordance_enabled : String → Bool

/-! ## Output schemas (src/evenflow_mcp/schemas.py) -/

/-- `DecayChannel` (schemas.py). -/
inductive DecayChannel where
  | personal
  | group
  | behavior
deriving DecidableEq

/-- `DecayChannel.value`: the string value of the enum member. -/
def DecayChannel.value : DecayChannel → String
  | .personal => "personal"
  | .group => "group"
  | .behavior => "behavior"

/-- `LocationQuery` (schemas.py). -/
structure LocationQuery where
  location_id : String
  include_traces : Bool := true
  include_affordances : Bool := true
  decay_to_now : Bool := true

/-- `TraceQuery` (schemas.py).  `limit` is a result-count cap
(`results[:limit]`), modelled as `Nat`. -/
structure TraceQuery where
  location_id : Option String := none
  actor_id : Option String := none
  event_type : Option String := none
  channel : Option DecayChannel := none
  min_intensity : ℚ := 0
  limit : Nat := 100

/-- `ActionPrediction` (schemas.py). -/
structure ActionPrediction where
  actor_id : String
  actor_tags : List String
  location_id : String
  event_type : String
  intensity : ℚ

/-- `TraceInfo` (schemas.py). -/
structure TraceInfo where
  key : String
  channel : String
  accumulated : ℚ
  decayed_value : ℚ
  last_updated : ℚ
  event_count : Nat
  is_scar : Bool
deriving DecidableEq

/-- `AffordanceInfo` (schemas.py). -/
structure AffordanceInfo where
  affordance_type : String
  enabled : Bool
  mechanical_handle : Option String
  severity_clamp_hostile : ℚ
  severity_clamp_favorable : ℚ
  cooldown_seconds : ℚ
  cooldown_remaining : Option ℚ
  tells_hostile : List String
  tells_favorable : List String
deriving DecidableEq

/-- `LocationState` (schemas.py).  The source builds `saturation` as the
dict `{"personal": .., "group": .., "behavior": ..}`; it is modelled as the
`SaturationState` triple. -/
structure LocationState where
  location_id : String
  name : String
  description : String
  valuation_profile : List (String × ℚ)
  saturation : SaturationState
  traces : List TraceInfo
  affordances : List AffordanceInfo
  last_tick : ℚ
deriving DecidableEq

/-- `AffinityScore` (schemas.py). -/
structure AffinityScore where
  total : ℚ
  personal : ℚ
  group : ℚ
  behavior : ℚ
  threshold_label : String
deriving DecidableEq

/-- `ActionConsequence` (schemas.py). -/
structure ActionConsequence where
  location_id : String
  actor_id : String
  event_type : String
  affinity_before : Option AffinityScore
  affinity_after : Option AffinityScore
  triggered_affordances : List String
  narrative_hints : List String
deriving DecidableEq

/-- One dominant-event entry of `get_world_history_summary`
(the dict `{"event_type", "actor", "intensity", "count"}`). -/
structure DominantEvent where
  event_type : String
  actor : String
  intensity : ℚ
  count : Nat
deriving DecidableEq

/-- `WorldHistorySummary` (schemas.py). -/
structure WorldHistorySummary where
  location_id : String
  time_window_days : Int
  dominant_events : List DominantEvent
  notable_actors : List String
  mood : String
  folklore_seeds : List String
deriving DecidableEq

/-! ## Valuation and scoring (modelled from the spec) -/

/-- The category of an event type: the substring before the first `.`
(Python `event_type.split('.')[0]`, which is the part of the string before
the first dot, or the whole string when it has no dot). -/
def category (event_type : String) : String :=
  String.mk (event_type.toList.takeWhile (fun c => c ≠ '.'))

/-- Modelled from the spec: `valuationWeight(profile, eventType)`
(world/affinity is not in the sources; §4.2) — exact event-type match
first, else the category entry, else `0.0`.  The same three-tier
resolution appears verbatim in `src/mcp/tools.py` `explain_valuation`. -/
def valuationWeight (profile : List (String × ℚ)) (event_type : String) : ℚ :=
  match dget profile event_type with
  | some w => w
  | none =>
      match dget profile (category event_type) with
      | some w => w
      | none => 0

/-- Modelled from the spec: `scorePersonal` (world/affinity/computation.py
is not in the sources; §4.2) — over all (actorId, eventType) keys matching
the given actor, sums `decayedValue(trace) * valuationWeight(profile,
eventType)`. -/
def score_personal (env : Env) (traces : List ((String × String) × TraceRecord))
    (actor_id : String) (half_life : ℚ) (profile : List (String × ℚ)) (now : ℚ) : ℚ :=
  ((traces.filter (fun e => e.1.1 == actor_id)).map
    (fun e => env.get_decayed_value e.2 half_life now * valuationWeight profile e.1.2)).sum

/-- Modelled from the spec: `scoreGroup` (world/affinity/computation.py is
not in the sources; §4.2) — the same sum restricted to (actorTag,
eventType) keys whose tag is in the given tag set. -/
def score_group (env : Env) (traces : List ((String × String) × TraceRecord))
    (actor_tags : List String) (half_life : ℚ) (profile : List (String × ℚ)) (now : ℚ) : ℚ :=
  ((traces.filter (fun e => actor_tags.contains e.1.1)).map
    (fun e => env.get_decayed_value e.2 half_life now * valuationWeight profile e.1.2)).sum

/-- Modelled from the spec: `scoreBehavior` (world/affinity/computation.py
is not in the sources; §4.2) — the sum over all eventType keys
unconditionally. -/
def score_behavior (env : Env) (traces : List (String × TraceRecord))
    (half_life : ℚ) (profile : List (String × ℚ)) (now : ℚ) : ℚ :=
  (traces.map
    (fun e => env.get_decayed_value e.2 half_life now * valuationWeight profile e.1)).sum

/-- Modelled from the spec: `logEvent(location, event)`
(world/affinity/events.py is not in the sources; §4.5) — create the record
if absent, else add the intensity to `accumulated`, increment
`eventCount`, set `lastUpdated = now`.  The saturation-clamp and
scar-promotion policies are configuration-driven and left unspecified by
the spec; they are not modelled.  Helper for one trace map. -/
def bump_trace {κ : Type} [DecidableEq κ] (m : List (κ × TraceRecord))
    (k : κ) (intensity now : ℚ) : List (κ × TraceRecord) :=
  match dget m k with
  | none => m ++ [(k, { accumulated := intensity, last_updated := now,
                        event_count := 1, is_scar := false })]
  | some t => dset m k { t with accumulated := t.accumulated + intensity,
                                last_updated := now,
                                event_count := t.event_count + 1 }

/-- Modelled from the spec: `logEvent` (world/affinity/events.py is not in
the sources; §4.5) — updates the personal trace keyed by (actorId,
eventType), a group trace for each of the actor's tags, and the behavior
trace keyed by eventType. -/
def log_event (location : Location) (event : AffinityEvent) (now : ℚ) : Location :=
  { location with
    personal_traces :=
      bump_trace location.personal_traces (event.actor_id, event.event_type) event.intensity now,
    group_traces :=
      event.actor_tags.foldl
        (fun m tag => bump_trace m (tag, event.event_type) event.intensity now)
        location.group_traces,
    behavior_traces :=
      bump_trace location.behavior_traces event.event_type event.intensity now }

/-! ## Adapter operations (src/mcp/world_adapter.py) -/

/-- `EvenflowAdapter.list_locations` (world_adapter.py, lines 132-134). -/
def list_locations (store : Store) : List String :=
  store.map Prod.fst

/-- The `AffordanceInfo` built for one affordance inside
`EvenflowAdapter.get_location_state` (world_adapter.py, lines 198-215):
cooldown remaining is `max(0, cooldowns[type] - now)` when the type has a
cooldown entry, and `enabled` is the conjunction
`aff.enabled and is_affordance_enabled(aff.affordance_type)`. -/
def mk_affordance_info (env : Env) (cooldowns : List (String × ℚ)) (now : ℚ)
    (aff : AffordanceConfig) : AffordanceInfo :=
  let cooldown_remaining : Option ℚ :=
    match dget cooldowns aff.affordance_type with
    | some until_ts => some (max 0 (until_ts - now))
    | none => none
  { affordance_type := aff.affordance_type,
    enabled := aff.enabled && env.is_affordance_enabled aff.affordance_type,
    mechanical_handle := aff.mechanical_handle,
    severity_clamp_hostile := aff.severity_clamp_hostile,
    severity_clamp_favorable := aff.severity_clamp_favorable,
    cooldown_seconds := aff.cooldown_seconds,
    cooldown_remaining := cooldown_remaining,
    tells_hostile := aff.tells_hostile,
    tells_favorable := aff.tells_favorable }

/-- The trace list built inside `EvenflowAdapter.get_location_state`
(world_adapter.py, lines 153-194): personal, then group, then behavior
traces, each rendered as `TraceInfo` with decay applied when
`decay_to_now` is set. -/
def location_state_traces (env : Env) (location : Location)
    (decay_to_now : Bool) (now : ℚ) : List TraceInfo :=
  location.personal_traces.map (fun e =>
    { key := "(" ++ e.1.1 ++ ", " ++ e.1.2 ++ ")",
      channel := "personal",
      accumulated := e.2.accumulated,
      decayed_value :=
        if decay_to_now then
          env.get_decayed_value e.2 (env.half_life_personal_days * 86400) now
        else e.2.accumulated,
      last_updated := e.2.last_updated,
      event_count := e.2.event_count,
      is_scar := e.2.is_scar })
  ++ location.group_traces.map (fun e =>
    { key := "(" ++ e.1.1 ++ ", " ++ e.1.2 ++ ")",
      channel := "group",
      accumulated := e.2.accumulated,
      decayed_value :=
        if decay_to_now then
          env.get_decayed_value e.2 (env.half_life_group_days * 86400) now
        else e.2.accumulated,
      last_updated := e.2.last_updated,
      event_count := e.2.event_count,
      is_scar := e.2.is_scar })
  ++ location.behavior_traces.map (fun e =>
    { key := e.1,
      channel := "behavior",
      accumulated := e.2.accumulated,
      decayed_value :=
        if decay_to_now then
          env.get_decayed_value e.2 (env.half_life_behavior_days * 86400) now
        else e.2.accumulated,
      last_updated := e.2.last_updated,
      event_count := e.2.event_count,
      is_scar := e.2.is_scar })

/-- `EvenflowAdapter.get_location_state` (world_adapter.py, lines
136-230).  Returns `none` when the location is missing (a dataclass
instance is always truthy in Python, so `if not location` is exactly the
`None` check). -/
def get_location_state (env : Env) (store : Store) (query : LocationQuery)
    (now : ℚ) : Option LocationState :=
  match dget store query.location_id with
  | none => none
  | some location =>
      some
        { location_id := location.location_id,
          name := location.name,
          description := location.description,
          valuation_profile := location.valuation_profile,
          saturation := location.saturation,
          traces :=
            if query.include_traces then
              location_state_traces env location query.decay_to_now now
            else [],
          affordances :=
            if query.include_affordances then
              location.affordances.map (mk_affordance_info env location.cooldowns now)
            else [],
          last_tick := location.last_tick }

/-- `EvenflowAdapter.compute_affinity_for_actor` (world_adapter.py, lines
236-302): the three channel scores with half-lives converted from days to
seconds, blended with the configured channel weights, labelled by
`get_threshold_label`. -/
def compute_affinity_for_actor (env : Env) (store : Store)
    (location_id actor_id : String) (actor_tags : List String) (now : ℚ) :
    Option AffinityScore :=
  match dget store location_id with
  | none => none
  | some location =>
      let personal := score_personal env location.personal_traces actor_id
        (env.half_life_personal_days * 86400) location.valuation_profile now
      let group := score_group env location.group_traces actor_tags
        (env.half_life_group_days * 86400) location.valuation_profile now
      let behavior := score_behavior env location.behavior_traces
        (env.half_life_behavior_days * 86400) location.valuation_profile now
      let total := personal * env.weight_personal + group * env.weight_group
        + behavior * env.weight_behavior
      some { total := total, personal := personal, group := group,
             behavior := behavior,
             threshold_label := env.get_threshold_label total }

/-! ## Trace query engine (`EvenflowAdapter.query_traces`, lines 308-386) -/

/-- A Python exception escaping the adapter. -/
inductive PyError where
  | keyError (key : String)
deriving DecidableEq

/-- Truthiness of an optional string (Python `if query.location_id`):
false for `None` and for the empty string. -/
def opt_str_truthy : Option String → Bool
  | none => false
  | some s => !(s == "")

/-- The skip condition of the per-trace filters
(`if query.actor_id and actor_id != query.actor_id: continue`): skip
exactly when the filter is truthy and the value differs. -/
def str_filter_skip (filt : Option String) (v : String) : Bool :=
  match filt with
  | none => false
  | some f => !(f == "") && !(v == f)

/-- `query.channel is None or query.channel.value == name`. -/
def channel_matches (c : Option DecayChannel) (name : String) : Bool :=
  match c with
  | none => true
  | some ch => ch.value == name

/-- One channel's collection loop inside `query_traces`: for each entry,
apply the key filters, decay at the query-wide `now`, drop entries with
`decayed < min_intensity`, and render the survivors as `TraceInfo`.  The
three loops of the source (personal lines 326-344, group 347-363,
behavior 366-382) are this shape with different keys, channel names,
half-lives and skip conditions. -/
def collect_channel {κ : Type} (env : Env) (q : TraceQuery) (now : ℚ)
    (half_life : ℚ) (channel_name : String) (key_of : κ → String)
    (skip_entry : κ → Bool) (entries : List (κ × TraceRecord)) : List TraceInfo :=
  entries.filterMap (fun e =>
    if skip_entry e.1 then none
    else if env.get_decayed_value e.2 half_life now < q.min_intensity then none
    else some
      { key := key_of e.1,
        channel := channel_name,
        accumulated := e.2.accumulated,
        decayed_value := env.get_decayed_value e.2 half_life now,
        last_updated := e.2.last_updated,
        event_count := e.2.event_count,
        is_scar := e.2.is_scar })

/-- The matching traces one location contributes in `query_traces`
(personal then group then behavior, gated by the channel filter).  The
group and behavior loops apply no actor filter, as in the source. -/
def location_candidates (env : Env) (q : TraceQuery) (now : ℚ)
    (location : Location) : List TraceInfo :=
  (if channel_matches q.channel "personal" then
    collect_channel env q now (env.half_life_personal_days * 86400) "personal"
      (fun k => "(" ++ k.1 ++ ", " ++ k.2 ++ ")")
      (fun k => str_filter_skip q.actor_id k.1 || str_filter_skip q.event_type k.2)
      location.personal_traces
  else [])
  ++ (if channel_matches q.channel "group" then
    collect_channel env q now (env.half_life_group_days * 86400) "group"
      (fun k => "(" ++ k.1 ++ ", " ++ k.2 ++ ")")
      (fun k => str_filter_skip q.event_type k.2)
      location.group_traces
  else [])
  ++ (if channel_matches q.channel "behavior" then
    collect_channel env q now (env.half_life_behavior_days * 86400) "behavior"
      (fun k => k) (fun k => str_filter_skip q.event_type k)
      location.behavior_traces
  else [])

/-- All matching candidates across the scanned locations, collected before
any sorting or truncation. -/
def trace_candidates (env : Env) (q : TraceQuery) (now : ℚ)
    (locations : List Location) : List TraceInfo :=
  locations.flatMap (location_candidates env q now)

/-- The location scan list of `query_traces` (line 322):
`[self._locations[query.location_id]] if query.location_id else
self._locations.values()`.  A truthy `location_id` that is not a key of
the store makes the subscript raise `KeyError`. -/
def scanned_locations (store : Store) (q : TraceQuery) :
    Except PyError (List Location) :=
  if opt_str_truthy q.location_id then
    match dget store (q.location_id.getD "") with
    | none => Except.error (PyError.keyError (q.location_id.getD ""))
    | some location => Except.ok [location]
  else Except.ok (store.map Prod.snd)

/-- Descending ordering on decayed value. -/
def decayed_ge (a b : TraceInfo) : Prop :=
  b.decayed_value ≤ a.decayed_value

instance : DecidableRel decayed_ge := fun a b =>
  inferInstanceAs (Decidable (b.decayed_value ≤ a.decayed_value))

instance : IsTotal TraceInfo decayed_ge :=
  ⟨fun a b => (le_total b.decayed_value a.decayed_value).imp id id⟩

instance : IsTrans TraceInfo decayed_ge :=
  ⟨fun _ _ _ h1 h2 => le_trans h2 h1⟩

/-- `results.sort(key=lambda t: t.decayed_value, reverse=True)`: Python's
sort is stable, so it is extensionally the stable insertion sort by the
same descending ordering. -/
def sort_by_decayed (l : List TraceInfo) : List TraceInfo :=
  List.insertionSort decayed_ge l

/-- `EvenflowAdapter.query_traces` (world_adapter.py, lines 308-386):
collect candidates over the scanned locations, sort by decayed value
descending, truncate to `limit`. -/
def query_traces (env : Env) (store : Store) (q : TraceQuery) (now : ℚ) :
    Except PyError (List TraceInfo) :=
  match scanned_locations store q with
  | Except.error e => Except.error e
  | Except.ok locations =>
      Except.ok ((sort_by_decayed (trace_candidates env q now locations)).take q.limit)

/-! ## Prediction (`EvenflowAdapter.predict_action_consequence`, lines 392-471) -/

/-- The triggered-affordance / narrative-hint derivation of
`predict_action_consequence` (lines 446-461).  `if affinity_after:` is the
`None` check (an `AffinityScore` dataclass is always truthy).  In the
hostile/wary branch every affordance with `aff.enabled` is appended to
`triggered` and its first hostile tell (when the tell list is non-empty)
to `hints`; in the warm/favorable branch nothing is triggered and the
first favorable tells are collected; any other label leaves both lists
empty.  Note: only `aff.enabled` is consulted here — unlike
`get_location_state`, the global registry is not. -/
def derive_affordance_outcomes (affinity_after : Option AffinityScore)
    (affordances : List AffordanceConfig) : List String × List String :=
  match affinity_after with
  | none => ([], [])
  | some score =>
      if score.threshold_label = "hostile" ∨ score.threshold_label = "wary" then
        (affordances.filterMap (fun aff =>
            if aff.enabled then some aff.affordance_type else none),
         affordances.filterMap (fun aff =>
            if aff.enabled then aff.tells_hostile.head? else none))
      else if score.threshold_label = "warm" ∨ score.threshold_label = "favorable" then
        ([],
         affordances.filterMap (fun aff =>
            if aff.enabled then aff.tells_favorable.head? else none))
      else ([], [])

/-- `EvenflowAdapter.predict_action_consequence` (world_adapter.py, lines
392-471).  The source temporarily replaces the stored location with a deep
copy that has the hypothetical event logged, computes the after-affinity,
then restores the original (fetched before the swap; a dataclass is
truthy, so `if original:` restores whenever the id was present).  The
store threading is made explicit: the second component is the adapter's
`_locations` dict after the call.  `set(prediction.actor_tags)` is
modelled as `dedup` (first occurrences; bumps to distinct keys commute, so
only the arbitrary set-iteration order is fixed by this choice). -/
def predict_action_consequence (env : Env) (store : Store)
    (prediction : ActionPrediction) (now : ℚ) :
    Option ActionConsequence × Store :=
  match dget store prediction.location_id with
  | none => (none, store)
  | some location =>
      let actor_tags := prediction.actor_tags.dedup
      let affinity_before := compute_affinity_for_actor env store
        prediction.location_id prediction.actor_id actor_tags now
      let event : AffinityEvent :=
        { event_type := prediction.event_type,
          actor_id := prediction.actor_id,
          actor_tags := actor_tags,
          location_id := prediction.location_id,
          intensity := prediction.intensity }
      let temp_location := log_event location event now
      let original := dget store prediction.location_id
      let store1 := dset store prediction.location_id temp_location
      let affinity_after := compute_affinity_for_actor env store1
        prediction.location_id prediction.actor_id actor_tags now
      let store2 :=
        match original with
        | some orig => dset store1 prediction.location_id orig
        | none => store1
      let outcomes := derive_affordance_outcomes affinity_after location.affordances
      (some
        { location_id := prediction.location_id,
          actor_id := prediction.actor_id,
          event_type := prediction.event_type,
          affinity_before := affinity_before,
          affinity_after := affinity_after,
          triggered_affordances := outcomes.1,
          narrative_hints := outcomes.2 },
       store2)

/-! ## History summary (`EvenflowAdapter.get_world_history_summary`, lines 477-555) -/

/-- The dominant-event candidates: one entry per personal trace whose
`last_updated` is inside the window (lines 503-511). -/
def dominant_candidates (location : Location) (cutoff : ℚ) : List DominantEvent :=
  location.personal_traces.filterMap (fun e =>
    if cutoff ≤ e.2.last_updated then
      some { event_type := e.1.2, actor := e.1.1,
             intensity := e.2.accumulated, count := e.2.event_count }
    else none)

/-- The notable-actors set: actors of in-window personal traces.  Python
collects them in a `set` (arbitrary iteration order); modelled as a
first-occurrence dedup list, which has the same membership. -/
def notable_actor_set (location : Location) (cutoff : ℚ) : List String :=
  location.personal_traces.foldl
    (fun acc e =>
      if cutoff ≤ e.2.last_updated then
        if acc.contains e.1.1 then acc else acc ++ [e.1.1]
      else acc) []

/-- The per-category behavior totals dict (lines 514-518):
`behavior_summary[category] = behavior_summary.get(category, 0) +
trace.accumulated` over in-window behavior traces. -/
def behavior_summary (location : Location) (cutoff : ℚ) : List (String × ℚ) :=
  location.behavior_traces.foldl
    (fun acc e =>
      if cutoff ≤ e.2.last_updated then
        dset acc (category e.1) ((dget acc (category e.1)).getD 0 + e.2.accumulated)
      else acc) []

/-- The mood decision block of `get_world_history_summary` (lines
521-530), over the per-category totals of `behavior_summary`. -/
def summary_mood (location : Location) (cutoff : ℚ) : String :=
  let harm := (dget (behavior_summary location cutoff) "harm").getD 0
  let offer := (dget (behavior_summary location cutoff) "offer").getD 0
  let create := (dget (behavior_summary location cutoff) "create").getD 0
  if harm > 0.5 then (if harm < 1.0 then "troubled" else "violent")
  else if offer > 0.3 ∨ create > 0.3 then
    (if offer > 0.5 then "sacred" else "peaceful")
  else "peaceful"

/-- Descending ordering on dominant-event intensity. -/
def intensity_ge (a b : DominantEvent) : Prop :=
  b.intensity ≤ a.intensity

instance : DecidableRel intensity_ge := fun a b =>
  inferInstanceAs (Decidable (b.intensity ≤ a.intensity))

instance : IsTotal DominantEvent intensity_ge :=
  ⟨fun a b => (le_total b.intensity a.intensity).imp id id⟩

instance : IsTrans DominantEvent intensity_ge :=
  ⟨fun _ _ _ h1 h2 => le_trans h2 h1⟩

/-- `dominant_events.sort(key=lambda e: e["intensity"], reverse=True)`,
modelled as the stable insertion sort by descending intensity. -/
def sort_by_intensity (l : List DominantEvent) : List DominantEvent :=
  List.insertionSort intensity_ge l

/-- `EvenflowAdapter.get_world_history_summary` (world_adapter.py, lines
477-555). -/
def get_world_history_summary (_env : Env) (store : Store)
    (location_id : String) (time_window_days : Int) (now : ℚ) :
    Option WorldHistorySummary :=
  match dget store location_id with
  | none => none
  | some location =>
      let cutoff : ℚ := now - (time_window_days : ℚ) * 86400
      let harm := (dget (behavior_summary location cutoff) "harm").getD 0
      let offer := (dget (behavior_summary location cutoff) "offer").getD 0
      let create := (dget (behavior_summary location cutoff) "create").getD 0
      let folklore_seeds :=
        (if harm > 0 ∧ (dget location.valuation_profile "harm").getD 0 < 0 then
          ["The " ++ location.name.toLower ++ " remembers those who brought harm"]
        else [])
        ++ (if (dget location.valuation_profile "harm.fire").getD 0 < -0.5 then
          ["Fire is forbidden in these parts"]
        else [])
        ++ (if offer > 0 then ["Travelers who leave offerings find easier paths"] else [])
        ++ (if create > 0 then ["Those who plant and tend are welcomed"] else [])
      some
        { location_id := location_id,
          time_window_days := time_window_days,
          dominant_events := (sort_by_intensity (dominant_candidates location cutoff)).take 10,
          notable_actors := (notable_actor_set location cutoff).take 10,
          mood := summary_mood location cutoff,
          folklore_seeds := folklore_seeds }

/-! ## Export (`EvenflowAdapter.export_world_state`, lines 565-597) -/

/-- One trace entry of the export (note the source omits `last_updated`
here). -/
structure ExportTrace where
  key : String
  channel : String
  accumulated : ℚ
  decayed_value : ℚ
  event_count : Nat
  is_scar : Bool
deriving DecidableEq

/-- One affordance entry of the export (dict keys `"type"`, `"enabled"`,
`"mechanical_handle"`). -/
structure ExportAffordance where
  affordance_type : String
  enabled : Bool
  mechanical_handle : Option String
deriving DecidableEq

/-- One location entry of the export. -/
structure ExportLocation where
  location_id : String
  name : String
  description : String
  valuation_profile : List (String × ℚ)
  saturation : SaturationState
  traces : List ExportTrace
  affordances : List ExportAffordance
deriving DecidableEq

/-- The export entry built from a `LocationState` (lines 571-596). -/
def mk_export_location (state : LocationState) : ExportLocation :=
  { location_id := state.location_id,
    name := state.name,
    description := state.description,
    valuation_profile := state.valuation_profile,
    saturation := state.saturation,
    traces := state.traces.map (fun t =>
      { key := t.key, channel := t.channel, accumulated := t.accumulated,
        decayed_value := t.decayed_value, event_count := t.event_count,
        is_scar := t.is_scar }),
    affordances := state.affordances.map (fun a =>
      { affordance_type := a.affordance_type, enabled := a.enabled,
        mechanical_handle := a.mechanical_handle }) }

/-- `EvenflowAdapter.export_world_state` (world_adapter.py, lines
565-597): for each stored location id, `get_location_state` with the
default query (all includes on) and, when a state came back (`if state:`
— a dataclass is always truthy, so exactly when it is not `None`), one
entry in the export dict.  The loop assigns each key once (store keys are
unique), so the dict build is the order-preserving `filterMap`. -/
def export_world_state (env : Env) (store : Store) (now : ℚ) :
    List (String × ExportLocation) :=
  store.filterMap (fun e =>
    (get_location_state env store { location_id := e.1 } now).map
      (fun state => (e.1, mk_export_location state)))

/-! ## explain_valuation (src/mcp/tools.py, lines 236-286) -/

/-- The result dict of the `explain_valuation` tool.  `err` is the
`{"error": ...}` dict returned for an unknown location; `ok` carries the
`event_type`, `weight`, `match_type` and (in the category branch) the
`category` keys.  The display-only `"explanation"` string is omitted. -/
inductive ValuationOutcome where
  | err (location_id : String)
  | ok (event_type : String) (weight : ℚ) (match_type : String)
       (category : Option String)
deriving DecidableEq

/-- `explain_valuation` (src/mcp/tools.py, lines 236-286; the same logic
appears in `src/aws/lambda_handler.py` `_handle_tool_call`): exact
event-type entry first, else the category entry, else weight `0.0` with
match type `"default"`. -/
def explain_valuation (store : Store) (location_id event_type : String) :
    ValuationOutcome :=
  match dget store location_id with
  | none => ValuationOutcome.err location_id
  | some location =>
      match dget location.valuation_profile event_type with
      | some w => ValuationOutcome.ok event_type w "exact" none
      | none =>
          match dget location.valuation_profile (category event_type) with
          | some w =>
              ValuationOutcome.ok event_type w "category" (some (category event_type))
          | none => ValuationOutcome.ok event_type 0 "default" none

/-! ## Dictionary lemmas -/

theorem dget_dset_self {κ α : Type} [DecidableEq κ] (m : List (κ × α)) (k : κ) (v : α) :
    dget (dset m k v) k = some v := by
  induction m with
  | nil => simp [dget, dset]
  | cons e rest ih =>
      by_cases h : e.1 = k
      · simp [dget, dset, h]
      · simpa [dget, dset, h] using ih

theorem dget_dset_ne {κ α : Type} [DecidableEq κ] (m : List (κ × α)) {k k2 : κ}
    (v : α) (h : k ≠ k2) : dget (dset m k v) k2 = dget m k2 := by
  induction m with
  | nil => simp [dget, dset, h]
  | cons e rest ih =>
      by_cases h1 : e.1 = k
      · subst h1
        simp [dget, dset, h, Ne.symm h]
      · by_cases h2 : e.1 = k2 <;> simp [dget, dset, h1, h2, ih, Ne.symm h]

theorem dset_dset {κ α : Type} [DecidableEq κ] (m : List (κ × α)) (k : κ) (v w : α) :
    dset (dset m k v) k w = dset m k w := by
  induction m with
  | nil => simp [dset]
  | cons e rest ih =>
      by_cases h : e.1 = k
      · simp [dset, h]
      · simp [dset, h, ih]

theorem dset_eq_of_dget {κ α : Type} [DecidableEq κ] (m : List (κ × α)) (k : κ)
    (v : α) (h : dget m k = some v) : dset m k v = m := by
  induction m with
  | nil => simp [dget] at h
  | cons e rest ih =>
      obtain ⟨k1, v1⟩ := e
      by_cases h1 : k1 = k
      · simp only [dget, h1, if_pos rfl] at h
        obtain rfl : v1 = v := Option.some.inj h
        simp [dset, h1]
      · simp only [dget, h1, if_neg h1] at h
        simp [dset, h1, ih h]

theorem dget_isSome_of_mem {κ α : Type} [DecidableEq κ] (m : List (κ × α))
    (e : κ × α) (h : e ∈ m) : (dget m e.1).isSome := by
  induction m with
  | nil => simp at h
  | cons e1 rest ih =>
      rcases List.mem_cons.mp h with h1 | h1
      · subst h1; simp [dget]
      · by_cases h2 : e1.1 = e.1 <;> simp [dget, h2, ih h1]

/-! ## C1 — prediction leaves the committed store unchanged -/

/-- `predict_action_consequence` returns the store it was given: the
temporary swap of the deep copy is always undone, because `original` is
fetched before the swap and a present location is truthy. -/
theorem predict_store_eq (env : Env) (store : Store) (p : ActionPrediction)
    (now : ℚ) : (predict_action_consequence env store p now).2 = store := by
  unfold predict_action_consequence
  cases h : dget store p.location_id with
  | none => simp
  | some loc => simp [h, dset_dset, dset_eq_of_dget store p.location_id loc h]

/-- C1: for every location and every prediction input,
`predict_action_consequence` leaves the committed location state
unchanged — the `LocationState` returned by `get_location_state`
immediately before the call is structurally identical to the one returned
immediately after (traces, cooldowns, saturation, affordances all
equal). -/
theorem predict_action_consequence_frame (env : Env) (store : Store)
    (p : ActionPrediction) (now : ℚ) (q : LocationQuery) (t : ℚ) :
    get_location_state env (predict_action_consequence env store p now).2 q t
      = get_location_state env store q t := by
  rw [predict_store_eq]

/-! ## C7 — NotFound iff the location id is absent -/

/-- C7: each of `get_location_state`, `compute_affinity_for_actor`,
`predict_action_consequence` and `get_world_history_summary` returns
`None` (rendered by the tool layer as a distinct error) exactly when the
given location id is absent from the store, and a non-error value when it
is present. -/
theorem location_scoped_ops_not_found (env : Env) (store : Store) (now : ℚ)
    (q : LocationQuery) (lid aid : String) (tags : List String)
    (p : ActionPrediction) (wd : Int) :
    ((get_location_state env store q now).isSome
        ↔ (dget store q.location_id).isSome)
    ∧ ((compute_affinity_for_actor env store lid aid tags now).isSome
        ↔ (dget store lid).isSome)
    ∧ (((predict_action_consequence env store p now).1).isSome
        ↔ (dget store p.location_id).isSome)
    ∧ ((get_world_history_summary env store lid wd now).isSome
        ↔ (dget store lid).isSome) := by
  refine ⟨?_, ?_, ?_, ?_⟩
  · cases h : dget store q.location_id <;> simp [get_location_state, h]
  · cases h : dget store lid <;> simp [compute_affinity_for_actor, h]
  · cases h : dget store p.location_id <;> simp [predict_action_consequence, h]
  · cases h : dget store lid <;> simp [get_world_history_summary, h]

/-! ## C10 — export keys equal the listed location ids -/

/-- C10: the key list of `export_world_state` equals `list_locations`:
every loaded location appears in the export (its state lookup succeeds
and a state is always truthy), in store order, and nothing else does. -/
theorem export_world_state_keys (env : Env) (store : Store) (now : ℚ) :
    (export_world_state env store now).map Prod.fst = list_locations store := by
  unfold export_world_state list_locations
  have aux : ∀ l : List (String × Location),
      (∀ e ∈ l, (dget store e.1).isSome) →
      (l.filterMap (fun e =>
        (get_location_state env store { location_id := e.1 } now).map
          (fun state => (e.1, mk_export_location state)))).map Prod.fst
        = l.map Prod.fst := by
    intro l
    induction l with
    | nil => intro _; rfl
    | cons e rest ih =>
        intro hmem
        obtain ⟨loc, hloc⟩ := Option.isSome_iff_exists.mp
          (hmem e (List.mem_cons_self e rest))
        have hrest := ih (fun x hx => hmem x (List.mem_cons_of_mem e hx))
        have hsome : (get_location_state env store { location_id := e.1 } now).isSome := by
          simp [get_location_state, hloc]
        obtain ⟨st, hst⟩ := Option.isSome_iff_exists.mp hsome
        simp [List.filterMap_cons, hst, hrest]
  exact aux store (fun e he => dget_isSome_of_mem store e he)

/-! ## C5 — three-tier valuation resolution -/

/-- C5: for an existing location, `explain_valuation` resolves in three
tiers — an exact profile entry wins with match type `"exact"`; otherwise
an entry for the category (the substring before the first dot) wins with
match type `"category"`; otherwise the weight is `0.0` with match type
`"default"`. -/
theorem explain_valuation_three_tiers (store : Store) (lid et : String)
    (loc : Location) (h : dget store lid = some loc) :
    (∀ w, dget loc.valuation_profile et = some w →
        explain_valuation store lid et = ValuationOutcome.ok et w "exact" none)
    ∧ (dget loc.valuation_profile et = none →
        ∀ w, dget loc.valuation_profile (category et) = some w →
        explain_valuation store lid et
          = ValuationOutcome.ok et w "category" (some (category et)))
    ∧ (dget loc.valuation_profile et = none →
        dget loc.valuation_profile (category et) = none →
        explain_valuation store lid et
          = ValuationOutcome.ok et 0 "default" none) := by
  refine ⟨?_, ?_, ?_⟩ <;> intros <;> simp [explain_valuation, h, *]

/-- A sample location with the valuation profile of the spec's resolution
example: `{"harm": -0.3, "harm.fire": -0.8}`. -/
def vwLoc : Location :=
  { location_id := "grove", name := "Grove", description := "",
    valuation_profile := [("harm", -3/10), ("harm.fire", -8/10)],
    personal_traces := [], group_traces := [], behavior_traces := [],
    saturation := ⟨0, 0, 0⟩, affordances := [], cooldowns := [],
    last_tick := 0 }

/-- A one-location store for concrete witnesses. -/
def vwStore : Store := [("grove", vwLoc)]

/-- Witness for C5 at the spec's example profile: `"harm.fire"` resolves
exactly to `-0.8`, `"harm.sword"` through the category to `-0.3`,
`"offer.gift"` to the default `0.0`. -/
theorem explain_valuation_three_tiers_witness :
    explain_valuation vwStore "grove" "harm.fire"
      = ValuationOutcome.ok "harm.fire" (-8/10) "exact" none
    ∧ explain_valuation vwStore "grove" "harm.sword"
      = ValuationOutcome.ok "harm.sword" (-3/10) "category" (some "harm")
    ∧ explain_valuation vwStore "grove" "offer.gift"
      = ValuationOutcome.ok "offer.gift" 0 "default" none :=
  ⟨(explain_valuation_three_tiers vwStore "grove" "harm.fire" vwLoc rfl).1
      (-8/10) rfl,
   (explain_valuation_three_tiers vwStore "grove" "harm.sword" vwLoc rfl).2.1
      rfl (-3/10) rfl,
   (explain_valuation_three_tiers vwStore "grove" "offer.gift" vwLoc rfl).2.2
      rfl rfl⟩

/-! ## C6 — unknown location id in query_traces -/

/-- A concrete environment for witnesses: exact config numbers, decay kept
at the accumulated value, a threshold labelling by sign, the registry all
on. -/
def sampleEnv : Env :=
  { half_life_personal_days := 7, half_life_group_days := 30,
    half_life_behavior_days := 90,
    weight_personal := 1/2, weight_group := 3/10, weight_behavior := 1/5,
    get_decayed_value := fun t _ _ => t.accumulated,
    get_threshold_label := fun total => if total < 0 then "hostile" else "neutral",
    is_affordance_enabled := fun _ => true }

/-- C6 (code evaluated at the failing input): a trace query whose
`location_id` names a location that is not in the store makes
`query_traces` raise `KeyError` (line 322 subscripts the dict directly),
instead of signalling NotFound the way every other location-scoped
operation does by returning `None`. -/
theorem query_traces_unknown_location_keyerror :
    query_traces sampleEnv vwStore { location_id := some "ruins" } 0
      = Except.error (PyError.keyError "ruins") := rfl

/-! ## C3 / C4 — affordance gating and the trigger asymmetry -/

/-- An affordance with one hostile and one favorable tell, per-location
enabled. -/
def wardAff : AffordanceConfig :=
  { affordance_type := "ward", enabled := true, mechanical_handle := none,
    severity_clamp_hostile := 1/2, severity_clamp_favorable := -3/10,
    cooldown_seconds := 3600,
    tells_hostile := ["the woods creak"],
    tells_favorable := ["the woods hum"] }

/-- A location carrying `wardAff` and no traces. -/
def cexLoc : Location :=
  { location_id := "deepwood", name := "Deepwood", description := "",
    valuation_profile := [], personal_traces := [], group_traces := [],
    behavior_traces := [], saturation := ⟨0, 0, 0⟩,
    affordances := [wardAff], cooldowns := [], last_tick := 0 }

/-- An environment whose global affordance registry disables everything
and whose threshold labelling is constantly `"hostile"`. -/
def cexEnv : Env :=
  { half_life_personal_days := 1, half_life_group_days := 1,
    half_life_behavior_days := 1,
    weight_personal := 1, weight_group := 1, weight_behavior := 1,
    get_decayed_value := fun t _ _ => t.accumulated,
    get_threshold_label := fun _ => "hostile",
    is_affordance_enabled := fun _ => false }

/-- A one-location store for the gating fixtures. -/
def cexStore : Store := [("deepwood", cexLoc)]

/-- A concrete prediction input at `cexStore`. -/
def cexPred : ActionPrediction :=
  { actor_id := "bob", actor_tags := ["human"], location_id := "deepwood",
    event_type := "harm.fire", intensity := 1/2 }

/-- C3, counterexample: with the global registry disabling `"ward"`
(`is_affordance_enabled "ward" = false`), `predict_action_consequence`
still reports the affordance as triggered — so the prediction path treats
an affordance as active on the strength of `AffordanceConfig.enabled`
alone, refuting the claim that every affordance-reporting operation
requires both flags. -/
theorem predict_ignores_global_registry_cex :
    Option.map ActionConsequence.triggered_affordances
      (predict_action_consequence cexEnv cexStore cexPred 0).1 = some ["ward"]
    ∧ cexEnv.is_affordance_enabled "ward" = false
    ∧ cexLoc.affordances.map
        (fun a => a.enabled && cexEnv.is_affordance_enabled a.affordance_type)
        = [false] :=
  ⟨rfl, rfl, rfl⟩

/-- C3 as amended: `get_location_state` reports an affordance as enabled
exactly when both the per-location `AffordanceConfig.enabled` flag and the
process-wide registry entry are true, while the triggered-affordance /
narrative-hint derivation of `predict_action_consequence` consults only
the per-location flag — its result is invariant under any change of the
global registry. -/
theorem affordance_enabled_gating (env : Env) (store : Store)
    (q : LocationQuery) (now : ℚ) (loc : Location) (st : LocationState)
    (h1 : dget store q.location_id = some loc)
    (h2 : get_location_state env store q now = some st)
    (h3 : q.include_affordances = true) :
    st.affordances.map AffordanceInfo.enabled
      = loc.affordances.map
          (fun a => a.enabled && env.is_affordance_enabled a.affordance_type)
    ∧ ∀ (reg : String → Bool) (p : ActionPrediction) (t : ℚ),
        predict_action_consequence { env with is_affordance_enabled := reg } store p t
          = predict_action_consequence env store p t := by
  constructor
  · simp only [get_location_state, h1] at h2
    obtain rfl : _ = st := Option.some.inj h2
    simp [h3, mk_affordance_info, List.map_map, Function.comp]
  · intro reg p t
    rfl

/-- Witness for the amended C3 at the concrete fixtures: the location
state reports the `"ward"` affordance as disabled (registry off), and
turning the whole registry on changes nothing about the prediction. -/
theorem affordance_enabled_gating_witness :
    ∃ st, get_location_state cexEnv cexStore { location_id := "deepwood" } 0 = some st
      ∧ st.affordances.map AffordanceInfo.enabled
          = cexLoc.affordances.map
              (fun a => a.enabled && cexEnv.is_affordance_enabled a.affordance_type)
      ∧ predict_action_consequence { cexEnv with is_affordance_enabled := fun _ => true }
            cexStore cexPred 0
          = predict_action_consequence cexEnv cexStore cexPred 0 := by
  refine ⟨_, rfl, ?_⟩
  have h := affordance_enabled_gating cexEnv cexStore
    { location_id := "deepwood" } 0 cexLoc _ rfl rfl rfl
  exact ⟨h.1, h.2 (fun _ => true) cexPred 0⟩

/-- C4: for a present location, the prediction's affordance outcome
depends on the predicted label as the source's asymmetry dictates — a
hostile or wary label triggers every per-location-enabled affordance and
surfaces its first hostile tell (when it has one); a warm or favorable
label triggers nothing but surfaces the first favorable tells; a neutral
label leaves both lists empty. -/
theorem predict_affordance_asymmetry (env : Env) (store : Store)
    (p : ActionPrediction) (now : ℚ) (loc : Location)
    (cons : ActionConsequence) (sc : AffinityScore)
    (h1 : dget store p.location_id = some loc)
    (h2 : (predict_action_consequence env store p now).1 = some cons)
    (h3 : cons.affinity_after = some sc) :
    ((sc.threshold_label = "hostile" ∨ sc.threshold_label = "wary") →
        ∀ aff ∈ loc.affordances, aff.enabled = true →
          aff.affordance_type ∈ cons.triggered_affordances
          ∧ ∀ tell rest, aff.tells_hostile = tell :: rest →
              tell ∈ cons.narrative_hints)
    ∧ ((sc.threshold_label = "warm" ∨ sc.threshold_label = "favorable") →
        cons.triggered_affordances = []
        ∧ ∀ aff ∈ loc.affordances, aff.enabled = true →
            ∀ tell rest, aff.tells_favorable = tell :: rest →
              tell ∈ cons.narrative_hints)
    ∧ (sc.threshold_label = "neutral" →
        cons.triggered_affordances = [] ∧ cons.narrative_hints = []) := by
  simp only [predict_action_consequence, h1] at h2
  have e : cons = _ := (Option.some.inj h2).symm
  have hT : cons.triggered_affordances
      = (derive_affordance_outcomes cons.affinity_after loc.affordances).1 := by
    rw [e]
  have hH : cons.narrative_hints
      = (derive_affordance_outcomes cons.affinity_after loc.affordances).2 := by
    rw [e]
  rw [hT, hH, h3]
  simp only [derive_affordance_outcomes]
  refine ⟨?_, ?_, ?_⟩
  · intro hlab aff haff henabled
    rw [if_pos hlab]
    refine ⟨List.mem_filterMap.mpr ⟨aff, haff, by simp [henabled]⟩, ?_⟩
    intro tell rest htells
    exact List.mem_filterMap.mpr ⟨aff, haff, by simp [henabled, htells]⟩
  · intro hlab
    have hne1 : ¬(sc.threshold_label = "hostile" ∨ sc.threshold_label = "wary") := by
      rcases hlab with h | h <;> rw [h] <;> decide
    rw [if_neg hne1, if_pos hlab]
    refine ⟨rfl, ?_⟩
    intro aff haff henabled tell rest htells
    exact List.mem_filterMap.mpr ⟨aff, haff, by simp [henabled, htells]⟩
  · intro hlab
    have hne1 : ¬(sc.threshold_label = "hostile" ∨ sc.threshold_label = "wary") := by
      rw [hlab]; decide
    have hne2 : ¬(sc.threshold_label = "warm" ∨ sc.threshold_label = "favorable") := by
      rw [hlab]; decide
    rw [if_neg hne1, if_neg hne2]
    exact ⟨rfl, rfl⟩

/-- Witness for C4 at the concrete fixtures: the constant-hostile
labelling makes the prediction trigger the enabled `"ward"` affordance and
surface its first hostile tell. -/
theorem predict_affordance_asymmetry_witness :
    ∃ cons sc, (predict_action_consequence cexEnv cexStore cexPred 0).1 = some cons
      ∧ cons.affinity_after = some sc
      ∧ sc.threshold_label = "hostile"
      ∧ "ward" ∈ cons.triggered_affordances
      ∧ "the woods creak" ∈ cons.narrative_hints := by
  refine ⟨_, _, rfl, rfl, rfl, ?_, ?_⟩
  · exact ((predict_affordance_asymmetry cexEnv cexStore cexPred 0 cexLoc _ _
      rfl rfl rfl).1 (Or.inl rfl) wardAff (by simp [cexLoc]) rfl).1
  · exact ((predict_affordance_asymmetry cexEnv cexStore cexPred 0 cexLoc _ _
      rfl rfl rfl).1 (Or.inl rfl) wardAff (by simp [cexLoc]) rfl).2
      "the woods creak" [] rfl

/-! ## C8 — the mood decision table -/

/-- The sum of accumulated intensities of the in-window behavior traces of
one category: the value `behavior_summary` stores under that category. -/
def in_window_category_sum (l : List (String × TraceRecord)) (cutoff : ℚ)
    (cat : String) : ℚ :=
  ((l.filter (fun e => decide (cutoff ≤ e.2.last_updated) && (category e.1 == cat))).map
    (fun e => e.2.accumulated)).sum

/-- The in-window behavior-category total of a location, as the claim
states it (sum over in-window behavior traces of the category). -/
def category_total (location : Location) (cutoff : ℚ) (cat : String) : ℚ :=
  in_window_category_sum location.behavior_traces cutoff cat

/-- The claim's decision table over the behavior-category totals. -/
def mood_table (harm offer create : ℚ) : String :=
  if harm > 0.5 then (if harm ≥ 1.0 then "violent" else "troubled")
  else if offer > 0.3 ∨ create > 0.3 then
    (if offer > 0.5 then "sacred" else "peaceful")
  else "peaceful"

/-- The dict built by the `behavior_summary` fold holds, under each
category, exactly the in-window sum for that category. -/
theorem behavior_summary_fold_dget (cutoff : ℚ) (cat : String) :
    ∀ (l : List (String × TraceRecord)) (init : List (String × ℚ)),
      (dget (l.foldl (fun acc e =>
          if cutoff ≤ e.2.last_updated then
            dset acc (category e.1) ((dget acc (category e.1)).getD 0 + e.2.accumulated)
          else acc) init) cat).getD 0
        = (dget init cat).getD 0 + in_window_category_sum l cutoff cat := by
  intro l
  induction l with
  | nil => intro init; simp [in_window_category_sum]
  | cons e rest ih =>
      intro init
      simp only [List.foldl_cons]
      by_cases hw : cutoff ≤ e.2.last_updated
      · rw [if_pos hw]
        by_cases hc : category e.1 = cat
        · rw [ih, hc, dget_dset_self]
          simp only [in_window_category_sum, List.filter_cons,
            decide_eq_true_eq, hw, hc, beq_self_eq_true, Bool.and_self,
            decide_True, if_pos, List.map_cons, List.sum_cons,
            Option.getD_some]
          ring
        · rw [ih, dget_dset_ne _ _ hc]
          have hcond : (decide (cutoff ≤ e.2.last_updated) && (category e.1 == cat)) = false := by
            simp [hc]
          simp only [in_window_category_sum, List.filter_cons, hcond,
            Bool.false_eq_true, if_neg, ite_false]
      · rw [if_neg hw, ih]
        have hcond : (decide (cutoff ≤ e.2.last_updated) && (category e.1 == cat)) = false := by
          simp [hw]
        simp only [in_window_category_sum, List.filter_cons, hcond,
          Bool.false_eq_true, if_neg, ite_false]

/-- `behavior_summary` read at a category equals the claim-side total. -/
theorem behavior_summary_total (location : Location) (cutoff : ℚ) (cat : String) :
    (dget (behavior_summary location cutoff) cat).getD 0
      = category_total location cutoff cat := by
  unfold behavior_summary category_total
  rw [behavior_summary_fold_dget]
  simp [dget]

/-- The source's if-chain (troubled when `harm < 1.0`, violent otherwise)
agrees with the claim's table (violent when `harm >= 1.0`). -/
theorem mood_ite_eq_mood_table (h o c : ℚ) :
    (if h > 0.5 then (if h < 1.0 then "troubled" else "violent")
     else if o > 0.3 ∨ c > 0.3 then (if o > 0.5 then "sacred" else "peaceful")
     else "peaceful") = mood_table h o c := by
  unfold mood_table
  split_ifs <;> first | rfl | linarith

/-- C8: for every location and window, the mood of
`get_world_history_summary` is the claim's decision table over the
in-window behavior-category totals for harm, offer and create. -/
theorem world_history_mood_decision_table (env : Env) (store : Store)
    (lid : String) (wd : Int) (now : ℚ) (loc : Location)
    (s : WorldHistorySummary)
    (h1 : dget store lid = some loc)
    (h2 : get_world_history_summary env store lid wd now = some s) :
    s.mood = mood_table
      (category_total loc (now - (wd : ℚ) * 86400) "harm")
      (category_total loc (now - (wd : ℚ) * 86400) "offer")
      (category_total loc (now - (wd : ℚ) * 86400) "create") := by
  simp only [get_world_history_summary, h1] at h2
  have e : s = _ := (Option.some.inj h2).symm
  have hm : s.mood = summary_mood loc (now - (wd : ℚ) * 86400) := by rw [e]
  rw [hm]
  unfold summary_mood
  rw [behavior_summary_total, behavior_summary_total, behavior_summary_total]
  exact mood_ite_eq_mood_table _ _ _

/-- A location with one in-window personal trace and one in-window
behavior trace with harm total `1.2`. -/
def histLoc : Location :=
  { location_id := "shrine", name := "Shrine", description := "",
    valuation_profile := [("harm", -1/2)],
    personal_traces := [(("alice", "offer.gift"),
      { accumulated := 1/2, last_updated := 0, event_count := 1, is_scar := false })],
    group_traces := [],
    behavior_traces := [("harm.strike",
      { accumulated := 6/5, last_updated := 0, event_count := 1, is_scar := false })],
    saturation := ⟨0, 0, 0⟩, affordances := [], cooldowns := [],
    last_tick := 0 }

/-- A one-location store for the history-summary witnesses. -/
def histStore : Store := [("shrine", histLoc)]

/-- Witness for C8 at the concrete store: the summary exists and its mood
is the decision table applied to the in-window totals. -/
theorem world_history_mood_witness :
    ∃ s, get_world_history_summary sampleEnv histStore "shrine" 30 0 = some s
      ∧ s.mood = mood_table
          (category_total histLoc (0 - ((30 : Int) : ℚ) * 86400) "harm")
          (category_total histLoc (0 - ((30 : Int) : ℚ) * 86400) "offer")
          (category_total histLoc (0 - ((30 : Int) : ℚ) * 86400) "create") := by
  refine ⟨_, rfl, ?_⟩
  exact world_history_mood_decision_table sampleEnv histStore "shrine" 30 0
    histLoc _ rfl rfl

/-! ## C9 — dominant events and notable actors -/

/-- Membership in the notable-actors fold: an actor is collected exactly
when some personal trace of theirs is in the window. -/
theorem mem_notable_fold (cutoff : ℚ) :
    ∀ (l : List ((String × String) × TraceRecord)) (init : List String) (a : String),
      (a ∈ l.foldl (fun acc e =>
          if cutoff ≤ e.2.last_updated then
            (if acc.contains e.1.1 then acc else acc ++ [e.1.1])
          else acc) init
        ↔ a ∈ init ∨ ∃ e ∈ l, e.1.1 = a ∧ cutoff ≤ e.2.last_updated) := by
  intro l
  induction l with
  | nil => intro init a; simp
  | cons x rest ih =>
      intro init a
      simp only [List.foldl_cons]
      rw [ih]
      by_cases hw : cutoff ≤ x.2.last_updated
      · by_cases hc : init.contains x.1.1
        · rw [if_pos hw, if_pos hc]
          constructor
          · rintro (h | ⟨e, he, hea, hew⟩)
            · exact Or.inl h
            · exact Or.inr ⟨e, List.mem_cons_of_mem x he, hea, hew⟩
          · rintro (h | ⟨e, he, hea, hew⟩)
            · exact Or.inl h
            · rcases List.mem_cons.mp he with rfl | he2
              · subst hea
                exact Or.inl (by simpa using hc)
              · exact Or.inr ⟨e, he2, hea, hew⟩
        · rw [if_pos hw, if_neg hc]
          constructor
          · rintro (h | ⟨e, he, hea, hew⟩)
            · rcases List.mem_append.mp h with h1 | h1
              · exact Or.inl h1
              · have ha : a = x.1.1 := by simpa using h1
                exact Or.inr ⟨x, List.mem_cons_self x rest, ha.symm, hw⟩
            · exact Or.inr ⟨e, List.mem_cons_of_mem x he, hea, hew⟩
          · rintro (h | ⟨e, he, hea, hew⟩)
            · exact Or.inl (List.mem_append.mpr (Or.inl h))
            · rcases List.mem_cons.mp he with rfl | he2
              · exact Or.inl (List.mem_append.mpr (Or.inr (by simp [hea])))
              · exact Or.inr ⟨e, he2, hea, hew⟩
      · rw [if_neg hw]
        constructor
        · rintro (h | ⟨e, he, hea, hew⟩)
          · exact Or.inl h
          · exact Or.inr ⟨e, List.mem_cons_of_mem x he, hea, hew⟩
        · rintro (h | ⟨e, he, hea, hew⟩)
          · exact Or.inl h
          · rcases List.mem_cons.mp he with rfl | he2
            · exact absurd hew hw
            · exact Or.inr ⟨e, he2, hea, hew⟩

/-- C9: a personal trace contributes a dominant-event candidate (and its
actor a notable actor) exactly when its `last_updated` is at least
`now - windowDays*86400`; the summary's `dominant_events` are the sorted
candidates truncated to 10 — sorted by accumulated intensity descending,
at most 10 of them — and `notable_actors` holds at most 10 actors. -/
theorem world_history_dominant_events (env : Env) (store : Store)
    (lid : String) (wd : Int) (now : ℚ) (loc : Location)
    (s : WorldHistorySummary)
    (h1 : dget store lid = some loc)
    (h2 : get_world_history_summary env store lid wd now = some s) :
    (∀ a ev t, ((a, ev), t) ∈ loc.personal_traces →
        now - (wd : ℚ) * 86400 ≤ t.last_updated →
        ({ event_type := ev, actor := a, intensity := t.accumulated,
           count := t.event_count } : DominantEvent)
          ∈ dominant_candidates loc (now - (wd : ℚ) * 86400)
        ∧ a ∈ notable_actor_set loc (now - (wd : ℚ) * 86400))
    ∧ (∀ d ∈ dominant_candidates loc (now - (wd : ℚ) * 86400),
        ∃ a ev t, ((a, ev), t) ∈ loc.personal_traces
          ∧ now - (wd : ℚ) * 86400 ≤ t.last_updated
          ∧ d = { event_type := ev, actor := a, intensity := t.accumulated,
                  count := t.event_count })
    ∧ (∀ a ∈ notable_actor_set loc (now - (wd : ℚ) * 86400),
        ∃ ev t, ((a, ev), t) ∈ loc.personal_traces
          ∧ now - (wd : ℚ) * 86400 ≤ t.last_updated)
    ∧ s.dominant_events
        = (sort_by_intensity (dominant_candidates loc (now - (wd : ℚ) * 86400))).take 10
    ∧ List.Sorted intensity_ge s.dominant_events
    ∧ s.dominant_events.length ≤ 10
    ∧ s.notable_actors.length ≤ 10 := by
  simp only [get_world_history_summary, h1] at h2
  have e : s = _ := (Option.some.inj h2).symm
  have hD : s.dominant_events
      = (sort_by_intensity (dominant_candidates loc (now - (wd : ℚ) * 86400))).take 10 := by
    rw [e]
  have hN : s.notable_actors
      = (notable_actor_set loc (now - (wd : ℚ) * 86400)).take 10 := by
    rw [e]
  refine ⟨?_, ?_, ?_, hD, ?_, ?_, ?_⟩
  · intro a ev t hmem hwin
    constructor
    · exact List.mem_filterMap.mpr ⟨((a, ev), t), hmem, by simp [hwin]⟩
    · exact (mem_notable_fold _ loc.personal_traces [] a).mpr
        (Or.inr ⟨((a, ev), t), hmem, rfl, hwin⟩)
  · intro d hd
    obtain ⟨x, hx, hxd⟩ := List.mem_filterMap.mp hd
    by_cases hw : now - (wd : ℚ) * 86400 ≤ x.2.last_updated
    · rw [if_pos hw] at hxd
      exact ⟨x.1.1, x.1.2, x.2, hx, hw, (Option.some.inj hxd).symm⟩
    · rw [if_neg hw] at hxd
      exact absurd hxd (by simp)
  · intro a ha
    obtain ⟨x, hx, hxa, hxw⟩ := Or.resolve_left
      ((mem_notable_fold _ loc.personal_traces [] a).mp ha) (by simp)
    exact ⟨x.1.2, x.2, by rw [← hxa]; exact hx, hxw⟩
  · rw [hD]
    exact List.Pairwise.sublist (List.take_sublist 10 _)
      (List.sorted_insertionSort intensity_ge _)
  · rw [hD]
    exact List.length_take_le 10 _
  · rw [hN]
    exact List.length_take_le 10 _

/-- Witness for C9 at the concrete store: the in-window trace of
`"alice"` is a candidate, she is a notable actor, and the output caps and
ordering hold. -/
theorem world_history_dominant_events_witness :
    ∃ s, get_world_history_summary sampleEnv histStore "shrine" 30 0 = some s
      ∧ ({ event_type := "offer.gift", actor := "alice", intensity := 1/2,
           count := 1 } : DominantEvent)
          ∈ dominant_candidates histLoc (0 - ((30 : Int) : ℚ) * 86400)
      ∧ "alice" ∈ notable_actor_set histLoc (0 - ((30 : Int) : ℚ) * 86400)
      ∧ List.Sorted intensity_ge s.dominant_events
      ∧ s.dominant_events.length ≤ 10
      ∧ s.notable_actors.length ≤ 10 := by
  refine ⟨_, rfl, ?_⟩
  have h := world_history_dominant_events sampleEnv histStore "shrine" 30 0
    histLoc _ rfl rfl
  have hin := h.1 "alice" "offer.gift"
    { accumulated := 1/2, last_updated := 0, event_count := 1, is_scar := false }
    (by simp [histLoc]) (by simp)
  exact ⟨hin.1, hin.2, h.2.2.2.2.1, h.2.2.2.2.2.1, h.2.2.2.2.2.2⟩

/-! ## C2 — query filtering, ordering and truncation -/

/-- Everything `collect_channel` emits passed the minimum-intensity
filter. -/
theorem mem_collect_channel_min {κ : Type} (env : Env) (q : TraceQuery)
    (now half_life : ℚ) (channel_name : String) (key_of : κ → String)
    (skip_entry : κ → Bool) (entries : List (κ × TraceRecord))
    (t : TraceInfo)
    (h : t ∈ collect_channel env q now half_life channel_name key_of skip_entry entries) :
    q.min_intensity ≤ t.decayed_value := by
  obtain ⟨e, _, heq⟩ := List.mem_filterMap.mp h
  by_cases h1 : skip_entry e.1
  · rw [if_pos h1] at heq
    exact absurd heq (by simp)
  · rw [if_neg h1] at heq
    by_cases h2 : env.get_decayed_value e.2 half_life now < q.min_intensity
    · rw [if_pos h2] at heq
      exact absurd heq (by simp)
    · rw [if_neg h2] at heq
      obtain rfl : _ = t := Option.some.inj heq
      exact le_of_not_lt h2

/-- Everything a location contributes to the candidate list passed the
minimum-intensity filter. -/
theorem mem_location_candidates_min (env : Env) (q : TraceQuery) (now : ℚ)
    (location : Location) (t : TraceInfo)
    (h : t ∈ location_candidates env q now location) :
    q.min_intensity ≤ t.decayed_value := by
  unfold location_candidates at h
  rcases List.mem_append.mp h with h | h
  · rcases List.mem_append.mp h with h | h
    · by_cases hch : channel_matches q.channel "personal"
      · rw [if_pos hch] at h
        exact mem_collect_channel_min _ _ _ _ _ _ _ _ _ h
      · rw [if_neg hch] at h
        exact absurd h (by simp)
    · by_cases hch : channel_matches q.channel "group"
      · rw [if_pos hch] at h
        exact mem_collect_channel_min _ _ _ _ _ _ _ _ _ h
      · rw [if_neg hch] at h
        exact absurd h (by simp)
  · by_cases hch : channel_matches q.channel "behavior"
    · rw [if_pos hch] at h
      exact mem_collect_channel_min _ _ _ _ _ _ _ _ _ h
    · rw [if_neg hch] at h
      exact absurd h (by simp)

/-- Every collected candidate passed the minimum-intensity filter. -/
theorem mem_trace_candidates_min (env : Env) (q : TraceQuery) (now : ℚ)
    (locations : List Location) (t : TraceInfo)
    (h : t ∈ trace_candidates env q now locations) :
    q.min_intensity ≤ t.decayed_value := by
  obtain ⟨loc, _, hloc⟩ := List.mem_flatMap.mp h
  exact mem_location_candidates_min env q now loc t hloc

/-- C2: when `query_traces` succeeds, every returned trace meets the
minimum decayed intensity, the result is sorted by decayed value
descending, its length is at most `limit`, and truncation happened only
after collecting and sorting all candidates across the scanned locations:
the result extends by a remainder to a permutation of the full candidate
list, with every discarded candidate no higher-valued than every returned
one. -/
theorem query_traces_spec (env : Env) (store : Store) (q : TraceQuery)
    (now : ℚ) (res : List TraceInfo)
    (h : query_traces env store q now = Except.ok res) :
    (∀ t ∈ res, q.min_intensity ≤ t.decayed_value)
    ∧ List.Sorted decayed_ge res
    ∧ res.length ≤ q.limit
    ∧ ∃ scanned rest, scanned_locations store q = Except.ok scanned
        ∧ (res ++ rest).Perm (trace_candidates env q now scanned)
        ∧ ∀ t ∈ res, ∀ u ∈ rest, u.decayed_value ≤ t.decayed_value := by
  unfold query_traces at h
  cases hs : scanned_locations store q with
  | error e =>
      rw [hs] at h
      exact absurd h (by simp)
  | ok scanned =>
      rw [hs] at h
      obtain rfl : _ = res := Except.ok.inj h
      refine ⟨?_, ?_, ?_, scanned,
        (sort_by_decayed (trace_candidates env q now scanned)).drop q.limit,
        hs ▸ rfl, ?_, ?_⟩
      · intro t ht
        have htS := List.mem_of_mem_take ht
        have htC := (List.perm_insertionSort decayed_ge
          (trace_candidates env q now scanned)).mem_iff.mp htS
        exact mem_trace_candidates_min env q now scanned t htC
      · exact List.Pairwise.sublist (List.take_sublist _ _)
          (List.sorted_insertionSort decayed_ge _)
      · exact List.length_take_le _ _
      · rw [List.take_append_drop]
        exact List.perm_insertionSort decayed_ge _
      · have hp : ((sort_by_decayed (trace_candidates env q now scanned)).take q.limit
            ++ (sort_by_decayed (trace_candidates env q now scanned)).drop q.limit).Pairwise
              decayed_ge := by
          rw [List.take_append_drop]
          exact List.sorted_insertionSort decayed_ge _
        intro t ht u hu
        exact (List.pairwise_append.mp hp).2.2 t ht u hu

/-- A location with three personal traces whose decayed values are 9, 4
and 1 under the sample environment. -/
def qwLoc : Location :=
  { location_id := "camp", name := "Camp", description := "",
    valuation_profile := [],
    personal_traces :=
      [(("ann", "offer.gift"),
        { accumulated := 4, last_updated := 0, event_count := 1, is_scar := false }),
       (("bea", "harm.fire"),
        { accumulated := 9, last_updated := 0, event_count := 2, is_scar := false }),
       (("cal", "create.plant"),
        { accumulated := 1, last_updated := 0, event_count := 1, is_scar := false })],
    group_traces := [], behavior_traces := [],
    saturation := ⟨0, 0, 0⟩, affordances := [], cooldowns := [],
    last_tick := 0 }

/-- A one-location store for the query witness. -/
def qwStore : Store := [("camp", qwLoc)]

/-- A query with a minimum intensity that drops the weakest trace. -/
def qwQuery : TraceQuery := { location_id := some "camp", min_intensity := 2, limit := 10 }

/-- Witness for C2 at the concrete store: the query succeeds and the
returned traces satisfy the filter, ordering, cap and after-sorting
truncation properties. -/
theorem query_traces_spec_witness :
    ∃ res, query_traces sampleEnv qwStore qwQuery 0 = Except.ok res
      ∧ (∀ t ∈ res, qwQuery.min_intensity ≤ t.decayed_value)
      ∧ List.Sorted decayed_ge res
      ∧ res.length ≤ qwQuery.limit
      ∧ ∃ scanned rest, scanned_locations qwStore qwQuery = Except.ok scanned
          ∧ (res ++ rest).Perm (trace_candidates sampleEnv qwQuery 0 scanned)
          ∧ ∀ t ∈ res, ∀ u ∈ rest, u.decayed_value ≤ t.decayed_value :=
  ⟨_, rfl, query_traces_spec sampleEnv qwStore qwQuery 0 _ rfl⟩

end Evenflow
